import Mathlib

/-!
Shallow embedding of the escalation decision engine of the PSA-Code-Sprint-25
repository (src/our_solution/backend/app): the impact assessor, severity
classifier, confidence assessor, escalation resolver, justification engine and
learning-feedback recorder, together with theorems settling the specification
claims about them.

Modelling conventions:
* Python dict inputs become structures whose fields carry the values after the
  source applies its `dict.get(key, default)` defaults; a string field that the
  source only tests for truthiness ("" and None are both falsy) is a plain
  `String` with "" standing for an absent value.
* Python floats are modelled as exact rationals (ℚ); `int(x)` on a nonnegative
  float is `Int.floor` followed by `Int.toNat`.
* String scans (`in`, `startswith`, `strip`, `lower`, `split`) are modelled on
  the character-list level by the py* helpers below (ASCII behaviour; the
  repository only manipulates ASCII alert data).
-/

/-! ## Python string primitives -/

/-- `needle.isInfixOf hay` on lists: some contiguous run of `hay` equals `needle`. -/
def listIsInfixOf [BEq α] : List α → List α → Bool
  | needle, [] => needle.isEmpty
  | needle, a :: as => needle.isPrefixOf (a :: as) || listIsInfixOf needle as

/-- Python `sub in s` (substring containment). -/
def pyContains (s sub : String) : Bool := listIsInfixOf sub.data s.data

/-- Python `s.startswith(pre)`. -/
def pyStartswith (s pre : String) : Bool := pre.data.isPrefixOf s.data

/-- Python `s.strip()` (drop leading/trailing whitespace; ASCII whitespace). -/
def pyStrip (s : String) : String :=
  ⟨((s.data.dropWhile Char.isWhitespace).reverse.dropWhile Char.isWhitespace).reverse⟩

/-- Python `s.lower()` (ASCII case folding). -/
def pyLower (s : String) : String := ⟨s.data.map Char.toLower⟩

/-- Python `s.split("_")[0]`: the characters before the first underscore. -/
def pySplitHeadUnderscore (s : String) : String := ⟨s.data.takeWhile (· != '_')⟩

/-- Python `s.split()[0]`: first whitespace-delimited word ("" when none). -/
def pyFirstWord (s : String) : String :=
  ⟨(s.data.dropWhile Char.isWhitespace).takeWhile (fun c => !c.isWhitespace)⟩

/-- Value of a digit list read in base 10, `none` if some char is not a digit
or the list is empty. -/
def digitsValue : List Char → Option ℕ
  | [] => none
  | cs =>
    cs.foldl
      (fun acc c =>
        match acc with
        | none => none
        | some n => if c.isDigit then some (n * 10 + (c.toNat - 48)) else none)
      (some 0)

/-- Python `int(s)` on a string: optional sign, then decimal digits (surrounding
whitespace stripped). Raises `ValueError` (here: `none`) otherwise. Digit-group
underscores are not modelled. -/
def pyParseInt (s : String) : Option ℤ :=
  match (pyStrip s).data with
  | '-' :: rest => (digitsValue rest).map (fun n => -(n : ℤ))
  | '+' :: rest => (digitsValue rest).map (fun n => (n : ℤ))
  | cs => (digitsValue cs).map (fun n => (n : ℤ))

/-- Python `repr` of a list of strings: `['a', 'b']`. -/
def pyReprStrList (l : List String) : String :=
  "[" ++ String.intercalate ", " (l.map (fun s => "\x27" ++ s ++ "\x27")) ++ "]"

/-- Association-list rendering of Python `dict.get(key, default)`; the source
dicts have pairwise-distinct keys and are iterated in insertion order, so an
ordered association list is a faithful model. -/
def lookupD (m : List (String × α)) (k : String) (d : α) : α :=
  ((m.find? (fun p => p.1 == k)).map Prod.snd).getD d

/-! ## Data model (§3 of the spec)

`ParsedAlert`, the three evidence lists of an `EvidenceBundle`, and the
collaborator decision shape, as consumed by the scoring components. -/

structure ParsedAlert where
  ticket_id : String
  channel : String
  module : String
  priority : String
  entity_id : String
  error_code : String
  symptoms : List String
  alert_text : String
deriving Repr, DecidableEq

structure LogMatch where
  file : String
  line : ℕ
  text : String
deriving Repr, DecidableEq

structure SimilarCase where
  relevance_score : Option ℚ
  problem : String
  solution : String
deriving Repr, DecidableEq

structure KBArticle where
  title : String
  module : String
  content : String
  relevance_score : Option ℚ
deriving Repr, DecidableEq

/-! ## Impact Assessor (src/our_solution/backend/app/impact_assessor.py) -/

namespace ImpactAssessor

/-- `self.error_severity_map` of `ImpactAssessor.__init__` (insertion order). -/
def error_severity_map : List (String × ℕ) :=
  [("DB_CONN_FAIL", 40), ("VESSEL_ERR_4", 40), ("CONTAINER_ERR_1", 40), ("EDI_ERR_1", 40),
   ("VESSEL_ERR_1", 35), ("VESSEL_ERR_2", 35), ("VESSEL_ERR_3", 35),
   ("CONTAINER_ERR_2", 35), ("CONTAINER_ERR_3", 35), ("EDI_ERR_2", 35), ("EDI_ERR_3", 35),
   ("API_TIMEOUT", 25), ("API_ERR_500", 25), ("API_ERR_502", 25), ("API_ERR_503", 25),
   ("EDI_TIMEOUT", 25),
   ("API_LATENCY_WARN", 10), ("LOG_WARN", 5), ("PERF_WARN", 5)]

/-- `self.module_criticality`. -/
def module_criticality : List (String × ℕ) :=
  [("Vessel", 25), ("Container", 20), ("EDI", 15), ("API", 10), ("Database", 30), ("System", 20)]

/-- `self.customer_keywords`. -/
def customer_keywords : List String :=
  ["customer reported", "customer service", "urgent", "cannot proceed",
   "blocking", "critical", "immediate", "asap", "emergency",
   "customer complaint", "customer impact", "business impact"]

/-- `self.transaction_keywords`. -/
def transaction_keywords : List String :=
  ["unable to create", "failed to process", "transaction failed",
   "cannot complete", "blocked", "stuck", "timeout", "error",
   "vessel advice", "berth booking", "container booking"]

/-- Keywords of `keywords` occurring in `text` (loop order preserved). -/
def keywordHits (keywords : List String) (text : String) : List String :=
  keywords.filter (fun k => pyContains text k)

/-- `_calculate_recurrence_impact`. -/
def calculate_recurrence_impact (similar_cases : List SimilarCase) : ℕ :=
  if similar_cases = [] then 0
  else
    let recent_cases :=
      (similar_cases.filter (fun c => decide ((0.7 : ℚ) < c.relevance_score.getD 0))).length
    if 3 ≤ recent_cases then 10
    else if 2 ≤ recent_cases then 7
    else if 1 ≤ recent_cases then 3
    else 0

/-- `_classify_severity` (thresholds high = 70, medium = 40 from
`self.impact_thresholds`). -/
def classify_severity_by_score (impact_score : ℕ) : String :=
  if 70 ≤ impact_score then "Critical"
  else if 40 ≤ impact_score then "High"
  else if 20 ≤ impact_score then "Medium"
  else "Low"

structure FactorScore where
  score : ℕ
  max_score : ℕ
  details : String
deriving Repr, DecidableEq

structure ImpactBreakdown where
  error_code_severity : FactorScore
  module_criticality : FactorScore
  customer_mentions : FactorScore
  recurrence : FactorScore
  transaction_context : FactorScore
deriving Repr, DecidableEq

structure ImpactAssessment where
  impact_score : ℕ
  severity : String
  breakdown : ImpactBreakdown
  total_factors : ℕ
  max_possible_score : ℕ
deriving Repr, DecidableEq

/-- `calculate_impact_score`: five additive factors; the severity label is
taken from the uncapped sum, the returned score is capped at 100. -/
def calculate_impact_score (parsed_alert : ParsedAlert) (_log_evidence : List LogMatch)
    (similar_cases : List SimilarCase) (_kb_articles : List KBArticle) : ImpactAssessment :=
  let error_code := parsed_alert.error_code
  let error_impact := lookupD error_severity_map error_code 0
  let module_impact := lookupD module_criticality parsed_alert.module 10
  let alert_text := pyLower parsed_alert.alert_text
  let customer_mentions := keywordHits customer_keywords alert_text
  let customer_impact := min (5 * customer_mentions.length) 20
  let recurrence_impact := calculate_recurrence_impact similar_cases
  let transaction_indicators := keywordHits transaction_keywords alert_text
  let transaction_impact := min (3 * transaction_indicators.length) 15
  let impact_score :=
    error_impact + module_impact + customer_impact + recurrence_impact + transaction_impact
  { impact_score := min impact_score 100
    severity := classify_severity_by_score impact_score
    breakdown :=
      { error_code_severity :=
          { score := error_impact, max_score := 40
            details := "Error code \x27" ++ error_code ++ "\x27 mapped to "
              ++ toString error_impact ++ " points" }
        module_criticality :=
          { score := module_impact, max_score := 25
            details := "Module \x27" ++ parsed_alert.module ++ "\x27 has "
              ++ toString module_impact ++ " points criticality" }
        customer_mentions :=
          { score := customer_impact, max_score := 20
            details :=
              if customer_mentions ≠ [] then
                "Found customer keywords: " ++ pyReprStrList customer_mentions
              else "No customer urgency indicators" }
        recurrence :=
          { score := recurrence_impact, max_score := 10
            details := "Recurrence analysis: " ++ toString recurrence_impact ++ " points" }
        transaction_context :=
          { score := transaction_impact, max_score := 15
            details :=
              if transaction_indicators ≠ [] then
                "Transaction indicators: " ++ pyReprStrList transaction_indicators
              else "No transaction failure indicators" } }
    total_factors := 5
    max_possible_score := 110 }

end ImpactAssessor

/-! ## Severity Classifier (src/our_solution/backend/app/severity_classifier.py) -/

namespace SeverityClassifier

/-- `self.severity_rules` (insertion order, as iterated by the pattern loop). -/
def severity_rules : List (String × String) :=
  [("DB_CONN_FAIL", "Critical"), ("SYSTEM_DOWN", "Critical"), ("DATABASE_LOCK", "Critical"),
   ("MEMORY_EXHAUSTION", "Critical"),
   ("VESSEL_ERR_4", "High"), ("VESSEL_ERR_1", "High"), ("VESSEL_ERR_2", "High"),
   ("VESSEL_ERR_3", "High"), ("CONTAINER_ERR_1", "High"), ("CONTAINER_ERR_2", "High"),
   ("EDI_ERR_1", "High"), ("EDI_ERR_2", "High"),
   ("API_TIMEOUT", "Medium"), ("API_ERR_500", "Medium"), ("API_ERR_502", "Medium"),
   ("API_ERR_503", "Medium"), ("EDI_TIMEOUT", "Medium"), ("VESSEL_ERR_5", "Medium"),
   ("CONTAINER_ERR_3", "Medium"),
   ("API_LATENCY_WARN", "Low"), ("LOG_WARN", "Low"), ("PERF_WARN", "Low"),
   ("CACHE_MISS", "Low")]

/-- `self.module_severity_modifiers`. -/
def module_severity_modifiers : List (String × ℤ) :=
  [("Database", 1), ("Vessel", 0), ("Container", 0), ("EDI", 0), ("API", -1)]

/-- `self.severity_levels`. -/
def severity_levels : List String := ["Low", "Medium", "High", "Critical"]

/-- `_get_base_severity`: direct rule match, then first rule whose
pattern-head (`pattern.split("_")[0]`) is a prefix of the error code, then a
module-based default. -/
def get_base_severity (parsed_alert : ParsedAlert) : String :=
  match severity_rules.find? (fun p => p.1 == parsed_alert.error_code) with
  | some p => p.2
  | none =>
    match (if parsed_alert.error_code ≠ "" then
             severity_rules.find?
               (fun p => pyStartswith parsed_alert.error_code (pySplitHeadUnderscore p.1))
           else none) with
    | some p => p.2
    | none =>
      if parsed_alert.module = "Database" ∨ parsed_alert.module = "System" then "High"
      else if parsed_alert.module = "Vessel" ∨ parsed_alert.module = "Container" then "Medium"
      else "Low"

/-- `_apply_module_modifiers`: shift the tier index by the module modifier,
clamped into the four-tier range. The source indexes with `list.index`, always
called on a canonical tier; `indexOf` agrees there. -/
def clamp_index (new_index : ℤ) : ℤ :=
  max 0 (min ((severity_levels.length : ℤ) - 1) new_index)

def apply_module_modifiers (base_severity : String) (parsed_alert : ParsedAlert) : String :=
  if lookupD module_severity_modifiers parsed_alert.module 0 = 0 then base_severity
  else
    -- `current_index + modifier`, clamped into the four-tier range; the clamp
    -- keeps the index in range, so the `getD` default is unreachable
    severity_levels.getD
      (clamp_index ((severity_levels.indexOf base_severity : ℕ)
        + lookupD module_severity_modifiers parsed_alert.module 0)).toNat "Low"

/-- `_gpt_refine_severity`: accept the collaborator response only if, after
`strip()`, it is one of the four canonical tiers; otherwise keep the current
severity. (A raised exception in the collaborator call also keeps the current
severity; it behaves like an invalid response.) -/
def gpt_refine_severity (current_severity : String) (response : String) : String :=
  if pyStrip response ∈ severity_levels then pyStrip response
  else current_severity

/-- `_get_escalation_timeline`. -/
def get_escalation_timeline (severity : String) : String :=
  lookupD
    [("Critical", "Immediate escalation"), ("High", "Escalate within 15 min"),
     ("Medium", "Log and monitor"), ("Low", "No escalation")]
    severity "Log and monitor"

/-- `_generate_reasoning`. -/
def generate_reasoning (parsed_alert : ParsedAlert) (base_severity final_severity : String) :
    String :=
  let part1 :=
    if (severity_rules.find? (fun p => p.1 == parsed_alert.error_code)).isSome then
      "Error code \x27" ++ parsed_alert.error_code ++ "\x27 mapped to "
        ++ base_severity ++ " severity"
    else "Default " ++ base_severity ++ " severity for " ++ parsed_alert.module ++ " module"
  let modifier := lookupD module_severity_modifiers parsed_alert.module 0
  let parts :=
    [part1]
      ++ (if 0 < modifier then
            ["Upgraded due to " ++ parsed_alert.module ++ " module criticality"]
          else if modifier < 0 then
            ["Downgraded due to " ++ parsed_alert.module ++ " module lower priority"]
          else [])
      ++ (if base_severity ≠ final_severity then ["Final severity: " ++ final_severity] else [])
  String.intercalate "; " parts

structure SeverityClassification where
  severity : String
  base_severity : String
  adjusted_severity : String
  classification_method : String
  escalation_timeline : String
  reasoning : String
deriving Repr, DecidableEq

/-- `classify_severity`. The optional narrative-refinement collaborator is
modelled by `gpt_response : Option String`: `none` when no analyzer is
injected, `some r` for an analyzer whose call returned the text `r`. -/
def classify_severity (parsed_alert : ParsedAlert) (_impact_assessment : ImpactAssessor.ImpactAssessment)
    (gpt_response : Option String) : SeverityClassification :=
  let base_severity := get_base_severity parsed_alert
  let adjusted_severity := apply_module_modifiers base_severity parsed_alert
  let final_severity :=
    match gpt_response with
    | some response => gpt_refine_severity adjusted_severity response
    | none => adjusted_severity
  { severity := final_severity
    base_severity := base_severity
    adjusted_severity := adjusted_severity
    classification_method := if gpt_response.isSome then "hybrid" else "rule_based"
    escalation_timeline := get_escalation_timeline final_severity
    reasoning := generate_reasoning parsed_alert base_severity final_severity }

end SeverityClassifier

/-! ## Confidence Assessor and Escalation Resolver
(src/our_solution/backend/app/gpt_analyzer.py) -/

namespace GPTAnalyzer

/-- Factor 1 of `generate_confidence_assessment`: log evidence percentage.
The trailing 25 branch of the source is unreachable (the count is ≥ 1 inside
the nonempty guard) but kept for fidelity. -/
def log_percentage_of (log_evidence : List LogMatch) : ℕ :=
  if 0 < log_evidence.length then
    let log_count := log_evidence.length
    if 5 ≤ log_count then 100
    else if 3 ≤ log_count then 75
    else if 1 ≤ log_count then 50
    else 25
  else 0

/-- Factor 2: similar past cases percentage, driven by the first case: its
relevance score scaled to a percent when positive (`int(best_relevance * 100)`),
the fixed module-fallback value 40 when the score is 0 or absent. -/
def case_percentage_of (similar_cases : List SimilarCase) : ℕ :=
  match similar_cases with
  | [] => 0
  | c :: _ =>
    let best_relevance := c.relevance_score.getD 0
    if 0 < best_relevance then (⌊best_relevance * 100⌋).toNat else 40

/-- Does any of the first three KB articles carry resolution procedures? -/
def kb_has_resolution (kb_articles : List KBArticle) : Bool :=
  (kb_articles.take 3).any
    (fun article => pyContains article.content "Resolution" || pyContains article.content "Verification")

/-- Is the alert error code mentioned in one of the first three titles? -/
def kb_error_code_match (kb_articles : List KBArticle) (parsed : ParsedAlert) : Bool :=
  parsed.error_code != "" &&
    (kb_articles.take 3).any (fun article => pyContains article.title parsed.error_code)

/-- Factor 3: knowledge-base percentage (error-code match > relevance-scored
keyword match > module fallback). -/
def kb_percentage_of (kb_articles : List KBArticle) (parsed : ParsedAlert) : ℕ :=
  match kb_articles with
  | [] => 0
  | a :: _ =>
    let best_kb_relevance := a.relevance_score.getD 0
    if kb_error_code_match kb_articles parsed && kb_has_resolution kb_articles then 100
    else if kb_error_code_match kb_articles parsed then 85
    else if 0 < best_kb_relevance then (⌊best_kb_relevance * 100⌋).toNat
    else if kb_has_resolution kb_articles then 70
    else 40

/-- Identifier count: entity id, error code, and a known (non-"Unknown") module. -/
def identifiers_found_of (parsed : ParsedAlert) : ℕ :=
  (if parsed.entity_id ≠ "" then 1 else 0)
    + (if parsed.error_code ≠ "" then 1 else 0)
    + (if parsed.module ≠ "" ∧ parsed.module ≠ "Unknown" then 1 else 0)

/-- Factor 4: `int((identifiers_found / 3) * 100)`; the float expression yields
33 / 66 / 100 for 1 / 2 / 3 identifiers, which equals natural division. -/
def identifier_percentage_of (parsed : ParsedAlert) : ℕ :=
  if 0 < identifiers_found_of parsed then identifiers_found_of parsed * 100 / 3 else 0

/-- Factor 5: evidence-summary quality percentage. -/
def evidence_percentage_of (evidence_summary : List String) : ℕ :=
  if 0 < evidence_summary.length then
    let evidence_count := evidence_summary.length
    if 4 ≤ evidence_count then 100
    else if 3 ≤ evidence_count then 75
    else if 2 ≤ evidence_count then 50
    else 25
  else 0

/-- The base confidence score: `int(log*0.05 + case*0.15 + kb*0.40 + id*0.20 +
ev*0.20)`, the float weighted sum modelled as an exact rational. -/
def base_confidence_of (log_percentage case_percentage kb_percentage
    identifier_percentage evidence_percentage : ℕ) : ℕ :=
  (⌊(log_percentage : ℚ) * 0.05 + (case_percentage : ℚ) * 0.15 + (kb_percentage : ℚ) * 0.40
      + (identifier_percentage : ℚ) * 0.20 + (evidence_percentage : ℚ) * 0.20⌋).toNat

/-- Qualitative status attached to each factor percentage in the breakdown. -/
def factor_status (percentage : ℕ) : String :=
  if 90 ≤ percentage then "excellent"
  else if 70 ≤ percentage then "good"
  else if 50 ≤ percentage then "moderate"
  else if 0 < percentage then "limited"
  else "none"

/-- Recommendation tag derived from the total score at thresholds 70/50/30. -/
def recommendation_of (total_score : ℕ) : String :=
  if 70 ≤ total_score then "PROCEED"
  else if 50 ≤ total_score then "PROCEED WITH CAUTION"
  else if 30 ≤ total_score then "INVESTIGATE FURTHER"
  else "ESCALATE"

/-- Detail text paired with the recommendation tag. -/
def recommendation_detail_of (total_score : ℕ) : String :=
  if 70 ≤ total_score then
    "High confidence in both diagnosis and solution. Follow documented procedures carefully."
  else if 50 ≤ total_score then
    "Moderate confidence. Verify each step and monitor results closely."
  else if 30 ≤ total_score then
    "Limited evidence. Gather more information before proceeding."
  else "Insufficient evidence for confident diagnosis or resolution."

/-- `_get_diagnosis_explanation`. -/
def get_diagnosis_explanation (confidence_level : String) (identifier_percentage kb_percentage
    log_percentage evidence_percentage : ℕ) : String :=
  if confidence_level = "HIGH" then
    if identifier_percentage = 100 ∧ 85 ≤ kb_percentage then
      "Error code and identifiers clearly defined with matching KB documentation. Diagnosis is highly reliable."
    else if 85 ≤ kb_percentage then
      "Knowledge base provides clear documentation of this issue. High confidence in root cause identification."
    else if 75 ≤ log_percentage ∧ 75 ≤ evidence_percentage then
      "Strong log evidence and detailed analysis support the diagnosis."
    else "Multiple evidence sources confirm the diagnosis with high confidence."
  else if confidence_level = "MODERATE" then
    if 50 ≤ kb_percentage then
      "Related documentation found. Diagnosis is reasonable but may need verification during resolution."
    else "Some evidence supports diagnosis, but gaps exist. Verify findings during resolution."
  else "Limited diagnostic evidence. Root cause identification requires further investigation."

/-- `_get_solution_explanation`. -/
def get_solution_explanation (confidence_level : String) (kb_percentage case_percentage
    evidence_percentage : ℕ) : String :=
  if confidence_level = "HIGH" then
    if 85 ≤ kb_percentage then
      "Detailed resolution procedure documented in knowledge base with specific steps. Follow documented guidelines carefully."
    else if 70 ≤ kb_percentage ∧ 70 ≤ evidence_percentage then
      "Clear resolution guidance available with strong supporting analysis. Solution approach is well-defined."
    else if 75 ≤ case_percentage then
      "Proven solution from similar past cases. Resolution approach has worked before."
    else "Good resolution guidance available from multiple sources."
  else if confidence_level = "MODERATE" then
    if 50 ≤ kb_percentage then
      "General resolution guidance available. May need adaptation based on specific circumstances. Proceed carefully and verify results."
    else if 40 ≤ case_percentage then
      "Related solutions found in past cases. Resolution approach adapted from similar scenarios."
    else "Some resolution guidance available, but may need adaptation. Proceed carefully and verify results."
  else "Limited resolution guidance. Consider escalation or consult with senior engineers."

structure FactorReading where
  percentage : ℕ
  status : String
deriving Repr, DecidableEq

structure ConfidenceBreakdown where
  log_evidence : FactorReading
  past_cases : FactorReading
  knowledge_base : FactorReading
  identifiers : FactorReading
  evidence_quality : FactorReading
deriving Repr, DecidableEq

structure ConfidenceInterpretation where
  diagnosis_confidence : String
  diagnosis_explanation : String
  solution_confidence : String
  solution_explanation : String
  recommendation : String
  recommendation_detail : String
deriving Repr, DecidableEq

structure ConfidenceAssessment where
  overall_score : ℕ
  breakdown : ConfidenceBreakdown
  interpretation : ConfidenceInterpretation
deriving Repr, DecidableEq

/-- HIGH/MODERATE/LOW bucket at the fixed thresholds 70 and 50 (on the exact
rational value of the float sub-score). -/
def confidence_tier (score : ℚ) : String :=
  if 70 ≤ score then "HIGH" else if 50 ≤ score then "MODERATE" else "LOW"

/-- `generate_confidence_assessment`. -/
def generate_confidence_assessment (log_evidence : List LogMatch)
    (similar_cases : List SimilarCase) (kb_articles : List KBArticle)
    (parsed : ParsedAlert) (evidence_summary : List String) : ConfidenceAssessment :=
  let log_percentage := log_percentage_of log_evidence
  let case_percentage := case_percentage_of similar_cases
  let kb_percentage := kb_percentage_of kb_articles parsed
  let identifier_percentage := identifier_percentage_of parsed
  let evidence_percentage := evidence_percentage_of evidence_summary
  let total_score := base_confidence_of log_percentage case_percentage kb_percentage
    identifier_percentage evidence_percentage
  let diagnosis_score : ℚ := (identifier_percentage : ℚ) * 0.4 + (kb_percentage : ℚ) * 0.3
    + (log_percentage : ℚ) * 0.15 + (evidence_percentage : ℚ) * 0.15
  let diagnosis_confidence := confidence_tier diagnosis_score
  let solution_score : ℚ := (kb_percentage : ℚ) * 0.6 + (case_percentage : ℚ) * 0.2
    + (evidence_percentage : ℚ) * 0.2
  let solution_confidence := confidence_tier solution_score
  { overall_score := total_score
    breakdown :=
      { log_evidence := { percentage := log_percentage, status := factor_status log_percentage }
        past_cases := { percentage := case_percentage, status := factor_status case_percentage }
        knowledge_base := { percentage := kb_percentage, status := factor_status kb_percentage }
        identifiers :=
          { percentage := identifier_percentage, status := factor_status identifier_percentage }
        evidence_quality :=
          { percentage := evidence_percentage, status := factor_status evidence_percentage } }
    interpretation :=
      { diagnosis_confidence := diagnosis_confidence
        diagnosis_explanation := get_diagnosis_explanation diagnosis_confidence
          identifier_percentage kb_percentage log_percentage evidence_percentage
        solution_confidence := solution_confidence
        solution_explanation := get_solution_explanation solution_confidence
          kb_percentage case_percentage evidence_percentage
        recommendation := recommendation_of total_score
        recommendation_detail := recommendation_detail_of total_score } }

/-- The advisory decision produced by the language-model collaborator, with the
source defaults (`gpt_decision.get(key, default)`) already applied. -/
structure GPTDecision where
  escalate : Bool
  escalate_to : String
  escalate_reason : String
  estimated_time : String
  resolution_steps : List String
  verification_steps : List String
  sql_queries : List String
  risk_assessment : String
  confidence_in_decision : String
  needs_review : Bool
deriving Repr, DecidableEq

structure EscalationLogic where
  confidence_score : ℤ
  impact_score : ℤ
  severity : String
  ai_recommendation : Bool
  final_decision : Bool
  decision_factors : List String
deriving Repr, DecidableEq

structure FinalDecision where
  escalate : Bool
  escalate_to : String
  escalate_reason : String
  estimated_time : String
  resolution_steps : List String
  verification_steps : List String
  sql_queries : List String
  risk_assessment : String
  confidence_in_decision : String
  needs_review : Bool
  escalation_logic : EscalationLogic
deriving Repr, DecidableEq

structure RuleOutcome where
  final_escalate : Bool
  final_escalate_to : String
  final_reason : String
  needs_review : Bool
deriving Repr, DecidableEq

/-- The ordered rule list of `_apply_enhanced_escalation_logic`; first matching
rule wins. Rule 3 additionally sets the review flag (the source stores it into
the gpt_decision dict before copying it into the final dict). -/
def resolve_rules (confidence_score impact_score : ℤ) (severity : String)
    (gpt_decision : GPTDecision) : RuleOutcome :=
  let fallback_to := if gpt_decision.escalate_to ≠ "" then gpt_decision.escalate_to
    else "Product Team"
  -- Rule 1: Critical/High severity with any confidence -> Escalate
  if severity = "Critical" ∨ severity = "High" then
    { final_escalate := true, final_escalate_to := fallback_to
      final_reason := severity ++ " severity requires immediate escalation"
      needs_review := gpt_decision.needs_review }
  -- Rule 2: High impact (>= 70) with low confidence (< 50) -> Escalate
  else if 70 ≤ impact_score ∧ confidence_score < 50 then
    { final_escalate := true, final_escalate_to := fallback_to
      final_reason := "High impact (" ++ toString impact_score ++ ") with low confidence ("
        ++ toString confidence_score ++ "%) requires escalation"
      needs_review := gpt_decision.needs_review }
  -- Rule 3: Gray zone (30-50% confidence) -> Review required
  else if 30 ≤ confidence_score ∧ confidence_score < 50 then
    { final_escalate := false, final_escalate_to := ""
      final_reason := "Gray zone confidence (" ++ toString confidence_score
        ++ "%) - review required"
      needs_review := true }
  -- Rule 4: Very low confidence (< 30%) -> Escalate
  else if confidence_score < 30 then
    { final_escalate := true, final_escalate_to := fallback_to
      final_reason := "Very low confidence (" ++ toString confidence_score
        ++ "%) requires escalation"
      needs_review := gpt_decision.needs_review }
  -- Rule 5: AI recommendation with high confidence
  else if gpt_decision.escalate ∧ 50 ≤ confidence_score then
    { final_escalate := true, final_escalate_to := gpt_decision.escalate_to
      final_reason := "It is recommended to escalate: " ++ gpt_decision.escalate_reason
      needs_review := gpt_decision.needs_review }
  -- Rule 6: Default to GPT decision
  else
    { final_escalate := gpt_decision.escalate, final_escalate_to := gpt_decision.escalate_to
      final_reason :=
        if gpt_decision.escalate_reason ≠ "" then gpt_decision.escalate_reason
        else "Standard processing based on " ++ toString confidence_score ++ "% confidence"
      needs_review := gpt_decision.needs_review }

/-- `_apply_enhanced_escalation_logic`: combine the rule outcome with the
passthrough fields and the transparent decision-factor metadata. -/
def apply_enhanced_escalation_logic (confidence_score impact_score : ℤ) (severity : String)
    (gpt_decision : GPTDecision) : FinalDecision :=
  let r := resolve_rules confidence_score impact_score severity gpt_decision
  { escalate := r.final_escalate
    escalate_to := r.final_escalate_to
    escalate_reason := r.final_reason
    estimated_time := gpt_decision.estimated_time
    resolution_steps := gpt_decision.resolution_steps
    verification_steps := gpt_decision.verification_steps
    sql_queries := gpt_decision.sql_queries
    risk_assessment := gpt_decision.risk_assessment
    confidence_in_decision := gpt_decision.confidence_in_decision
    needs_review := r.needs_review
    escalation_logic :=
      { confidence_score := confidence_score
        impact_score := impact_score
        severity := severity
        ai_recommendation := gpt_decision.escalate
        final_decision := r.final_escalate
        decision_factors :=
          ["Confidence: " ++ toString confidence_score ++ "%",
           "Impact: " ++ toString impact_score,
           "Severity: " ++ severity,
           "Recommendation: " ++ if gpt_decision.escalate then "Escalate" else "No escalation"] } }

end GPTAnalyzer

/-! ## Justification Engine (src/our_solution/backend/app/justification_engine.py) -/

namespace JustificationEngine

open ImpactAssessor SeverityClassifier GPTAnalyzer

/-- `{best_relevance:.0%}`: a ratio rendered as a whole percent. (Python
rounds the underlying float half-to-even; on the exact rational this is
`round`, which differs only at exact half-percent floats.) -/
def formatPercent (r : ℚ) : String := toString (round (r * 100) : ℤ) ++ "%"

structure EvidenceJust where
  status : String
  explanation : String
  impact : String
  score_contribution : String
deriving Repr, DecidableEq

/-- `_justify_log_evidence`. -/
def justify_log_evidence (log_evidence : List LogMatch) (_confidence_score : ℕ) : EvidenceJust :=
  let log_count := log_evidence.length
  if log_count = 0 then
    { status := "none", explanation := "No log evidence found"
      impact := "Reduces confidence in diagnosis", score_contribution := "0%" }
  else if log_count < 3 then
    { status := "limited", explanation := "Found " ++ toString log_count ++ " log entries"
      impact := "Limited evidence for root cause analysis", score_contribution := "Low" }
  else if log_count < 10 then
    { status := "moderate"
      explanation := "Found " ++ toString log_count ++ " log entries with relevant patterns"
      impact := "Good evidence for diagnosis", score_contribution := "Medium" }
  else
    { status := "excellent"
      explanation := "Found " ++ toString log_count ++ " log entries with clear patterns"
      impact := "Strong evidence for root cause identification", score_contribution := "High" }

/-- `_justify_past_cases`. -/
def justify_past_cases (similar_cases : List SimilarCase) (_confidence_score : ℕ) : EvidenceJust :=
  let case_count := similar_cases.length
  match similar_cases with
  | [] =>
    { status := "none", explanation := "No similar past cases found"
      impact := "No historical precedent for resolution approach", score_contribution := "0%" }
  | c :: _ =>
    let best_relevance := c.relevance_score.getD 0
    if 0.8 ≤ best_relevance then
      { status := "excellent"
        explanation := "Found " ++ toString case_count ++ " cases with "
          ++ formatPercent best_relevance ++ " similarity"
        impact := "Exact match provides proven resolution path", score_contribution := "High" }
    else if 0.6 ≤ best_relevance then
      { status := "good"
        explanation := "Found " ++ toString case_count ++ " cases with "
          ++ formatPercent best_relevance ++ " similarity"
        impact := "Good precedent for resolution approach", score_contribution := "Medium" }
    else
      { status := "limited"
        explanation := "Found " ++ toString case_count ++ " cases with "
          ++ formatPercent best_relevance ++ " similarity"
        impact := "Some precedent but may need adaptation", score_contribution := "Low" }

/-- `_justify_knowledge_base`. -/
def justify_knowledge_base (kb_articles : List KBArticle) (_confidence_score : ℕ) : EvidenceJust :=
  let kb_count := kb_articles.length
  if kb_count = 0 then
    { status := "none", explanation := "No knowledge base articles found"
      impact := "No documented procedures available", score_contribution := "0%" }
  else if kb_has_resolution kb_articles then
    { status := "excellent"
      explanation := "Found " ++ toString kb_count ++ " articles with resolution procedures"
      impact := "Clear documented steps for resolution", score_contribution := "High" }
  else
    { status := "moderate"
      explanation := "Found " ++ toString kb_count ++ " articles but limited resolution guidance"
      impact := "Some documentation but may need adaptation", score_contribution := "Medium" }

/-- `_assess_business_impact`. -/
def assess_business_impact (impact_score : ℕ) (severity : String) : String :=
  if 70 ≤ impact_score ∨ severity = "Critical" then
    "Critical - Immediate business impact, potential revenue loss"
  else if 40 ≤ impact_score ∨ severity = "High" then
    "High - Significant operational impact, customer service degradation"
  else if 20 ≤ impact_score ∨ severity = "Medium" then
    "Medium - Moderate impact, some service degradation"
  else "Low - Minimal impact, routine operational issue"

structure ImpactJust where
  impact_score : ℕ
  severity : String
  contributing_factors : List String
  business_impact : String
  escalation_threshold : String
deriving Repr, DecidableEq

/-- `_justify_impact_assessment`: one `factor: score/max` line per breakdown
factor with a positive score, in dict insertion order. -/
def justify_impact_assessment (impact_assessment : ImpactAssessment) : ImpactJust :=
  let b := impact_assessment.breakdown
  let factors :=
    ([("error_code_severity", b.error_code_severity),
      ("module_criticality", b.module_criticality),
      ("customer_mentions", b.customer_mentions),
      ("recurrence", b.recurrence),
      ("transaction_context", b.transaction_context)].filter
        (fun p => decide (0 < p.2.score))).map
      (fun p => p.1 ++ ": " ++ toString p.2.score ++ "/" ++ toString p.2.max_score)
  { impact_score := impact_assessment.impact_score
    severity := impact_assessment.severity
    contributing_factors := factors
    business_impact := assess_business_impact impact_assessment.impact_score
      impact_assessment.severity
    escalation_threshold := if 70 ≤ impact_assessment.impact_score then "Met" else "Not met" }

structure SeverityJust where
  final_severity : String
  base_severity : String
  classification_method : String
  reasoning : String
  escalation_timeline : String
deriving Repr, DecidableEq

/-- `_justify_severity_classification`. -/
def justify_severity_classification (severity_classification : SeverityClassification) :
    SeverityJust :=
  { final_severity := severity_classification.severity
    base_severity := severity_classification.base_severity
    classification_method := severity_classification.classification_method
    reasoning := severity_classification.reasoning
    escalation_timeline := severity_classification.escalation_timeline }

/-- `_identify_risk_factors`. -/
def identify_risk_factors (parsed_alert : ParsedAlert) (_impact_score : ℕ) : List String :=
  let alert_text := pyLower parsed_alert.alert_text
  let error_code := parsed_alert.error_code
  let risk_factors :=
    (if error_code ≠ "" then
       (if pyContains (pyLower error_code) "vessel" then ["Vessel scheduling disruption"] else [])
         ++ (if pyContains (pyLower error_code) "container" then ["Container operations impact"]
             else [])
         ++ (if pyContains (pyLower error_code) "edi" then ["EDI message processing failure"]
             else [])
         ++ (if pyContains (pyLower error_code) "database" then ["Database connectivity issues"]
             else [])
     else [])
      ++ (if parsed_alert.module = "Vessel" then ["Port operations dependency"]
          else if parsed_alert.module = "Container" then ["Cargo handling impact"]
          else if parsed_alert.module = "EDI" then ["External partner communication"]
          else [])
      ++ (if pyContains alert_text "customer" then ["Customer service impact"] else [])
      ++ (if pyContains alert_text "urgent" || pyContains alert_text "critical" then
            ["Time-sensitive resolution required"]
          else [])
  if risk_factors ≠ [] then risk_factors else ["Standard operational risk"]

structure RiskJust where
  operational_risk : String
  escalation_risk : String
  recommended_action : String
  risk_factors : List String
deriving Repr, DecidableEq

/-- `_generate_risk_assessment`. -/
def generate_risk_assessment (parsed_alert : ParsedAlert) (impact_score : ℕ) (severity : String)
    (escalate : Bool) : RiskJust :=
  { operational_risk :=
      if severity = "Critical" ∨ severity = "High" then
        "High - Potential for significant business impact"
      else if severity = "Medium" then "Medium - Service degradation possible"
      else "Low - Minimal business impact"
    escalation_risk :=
      if escalate then "Low - Appropriate escalation reduces resolution time"
      else "Medium - Risk of delayed resolution if issue escalates"
    recommended_action := if escalate then "Escalate immediately" else "Monitor and resolve"
    risk_factors := identify_risk_factors parsed_alert impact_score }

structure RationaleJust where
  primary_rationale : String
  supporting_factors : List String
  decision_confidence : String
deriving Repr, DecidableEq

/-- `_generate_recommendation_rationale` (the source accepts `escalate` but
never reads it in this helper). -/
def generate_recommendation_rationale (_escalate : Bool) (confidence_score impact_score : ℕ)
    (severity : String) (escalate_reason : String) : RationaleJust :=
  let confidence_part :=
    if confidence_score < 30 then
      "Low confidence (<30%) indicates insufficient evidence for autonomous resolution"
    else if confidence_score < 50 then
      "Moderate confidence (30-50%) suggests need for additional validation"
    else "Confidence score (" ++ toString confidence_score ++ "%) supports autonomous resolution"
  let impact_part :=
    if 70 ≤ impact_score then "High impact score (≥70) indicates significant business risk"
    else if 40 ≤ impact_score then "Medium impact score (40-69) suggests monitoring required"
    else "Low impact score (<40) indicates routine handling appropriate"
  let severity_part :=
    if severity = "Critical" ∨ severity = "High" then
      severity ++ " severity requires immediate attention"
    else if severity = "Medium" then "Medium severity allows for standard resolution timeline"
    else "Low severity permits routine handling"
  { primary_rationale := escalate_reason
    supporting_factors := [confidence_part, impact_part, severity_part]
    decision_confidence :=
      if 70 ≤ confidence_score then "High"
      else if 50 ≤ confidence_score then "Medium"
      else "Low" }

structure DecisionSummary where
  escalate : Bool
  escalate_to : String
  primary_reason : String
  confidence_score : ℕ
  impact_score : ℕ
  severity : String
deriving Repr, DecidableEq

structure FactorJustBreakdown where
  log_evidence : EvidenceJust
  past_cases : EvidenceJust
  knowledge_base : EvidenceJust
  impact_assessment : ImpactJust
  severity_classification : SeverityJust
deriving Repr, DecidableEq

structure Justification where
  decision_summary : DecisionSummary
  factor_breakdown : FactorJustBreakdown
  risk_assessment : RiskJust
  recommendation_rationale : RationaleJust
deriving Repr, DecidableEq

/-- `generate_justification`: a pure projection of the decision, the three
assessments, the parsed alert and the evidence bundle. No collaborator is
consulted anywhere below this call. -/
def generate_justification (escalation_decision : FinalDecision)
    (confidence_assessment : ConfidenceAssessment) (impact_assessment : ImpactAssessment)
    (severity_classification : SeverityClassification) (parsed_alert : ParsedAlert)
    (log_evidence : List LogMatch) (similar_cases : List SimilarCase)
    (kb_articles : List KBArticle) : Justification :=
  let escalate := escalation_decision.escalate
  let escalate_to := escalation_decision.escalate_to
  let escalate_reason := escalation_decision.escalate_reason
  let confidence_score := confidence_assessment.overall_score
  let impact_score := impact_assessment.impact_score
  let severity := severity_classification.severity
  { decision_summary :=
      { escalate := escalate, escalate_to := escalate_to, primary_reason := escalate_reason
        confidence_score := confidence_score, impact_score := impact_score, severity := severity }
    factor_breakdown :=
      { log_evidence := justify_log_evidence log_evidence confidence_score
        past_cases := justify_past_cases similar_cases confidence_score
        knowledge_base := justify_knowledge_base kb_articles confidence_score
        impact_assessment := justify_impact_assessment impact_assessment
        severity_classification := justify_severity_classification severity_classification }
    risk_assessment := generate_risk_assessment parsed_alert impact_score severity escalate
    recommendation_rationale := generate_recommendation_rationale escalate confidence_score
      impact_score severity escalate_reason }

end JustificationEngine

/-! ## Learning Feedback Recorder (src/our_solution/backend/app/learning_feedback.py)

`_store_decision_record` and `_store_outcome_record` are print-only
placeholders in the source: the class keeps no record store at all, so the
functions below are pure except for the `ValueError` that Python `int()` can
raise while generating insights, modelled with `Except`. Wall-clock timestamps
(`datetime.now()`) appear only inside the stored (discarded) records and are
not modelled. -/

namespace LearningFeedback

/-- The exceptions the outcome path can raise. -/
inductive PyErr where
  | valueError
deriving Repr, DecidableEq

/-- A resolution outcome as passed to `record_resolution_outcome`, with the
source defaults (`final_outcome.get(key, default)`) already applied:
`resolved_by` defaults to "unknown", `success` and `escalation_was_needed`
default to `True`, the string fields to "". -/
structure ResolutionOutcomeInput where
  resolved_by : String
  resolution_time : String
  resolution_method : String
  success : Bool
  escalation_was_needed : Bool
  actual_escalate_to : String
  notes : String
deriving Repr, DecidableEq

/-- The four accuracy buckets as computed by `_analyze_outcome`: the decision
accuracy is a function of `escalation_was_needed` and `success` alone. -/
def decision_accuracy_of (escalation_was_needed success : Bool) : String :=
  if escalation_was_needed ∧ success then "correct_escalation"
  else if ¬escalation_was_needed ∧ success then "correct_no_escalation"
  else if escalation_was_needed ∧ ¬success then "incorrect_no_escalation"
  else "incorrect_escalation"

/-- `_generate_learning_insights`; `int(resolution_time.split()[0])` raises a
`ValueError` when the first word is not an integer literal. -/
def generate_learning_insights (decision_accuracy : String)
    (final_outcome : ResolutionOutcomeInput) : Except PyErr (List String) :=
  let insights :=
    if decision_accuracy = "correct_escalation" then
      ["Escalation decision was appropriate and effective"]
    else if decision_accuracy = "correct_no_escalation" then
      ["No escalation was the right choice"]
    else if decision_accuracy = "incorrect_no_escalation" then
      ["Should have escalated - confidence/impact thresholds may be too high"]
    else if decision_accuracy = "incorrect_escalation" then
      ["Escalation was unnecessary - thresholds may be too low"]
    else []
  let resolution_time := final_outcome.resolution_time
  if resolution_time ≠ "" ∧ pyContains resolution_time "min" then
    match pyParseInt (pyFirstWord resolution_time) with
    | none => .error .valueError
    | some time_minutes =>
      if 60 < time_minutes then
        .ok (insights ++ ["Resolution took longer than expected - consider escalation"])
      else .ok insights
  else .ok insights

/-- `_generate_improvement_suggestions`. -/
def generate_improvement_suggestions (decision_accuracy : String)
    (final_outcome : ResolutionOutcomeInput) : List String :=
  (if decision_accuracy = "incorrect_no_escalation" then
     ["Lower confidence threshold for escalation", "Increase impact score weight in decision"]
   else if decision_accuracy = "incorrect_escalation" then
     ["Raise confidence threshold for escalation", "Improve knowledge base coverage"]
   else [])
    ++ (if pyContains (pyLower final_outcome.resolved_by) "specialist" then
          ["Consider adding specialist escalation paths"]
        else [])

structure LearningAnalysis where
  decision_accuracy : String
  escalation_effectiveness : String
  learning_insights : List String
  improvement_suggestions : List String
deriving Repr, DecidableEq

/-- `_analyze_outcome`. The `feedback_id` parameter is accepted and ignored,
exactly as in the source: no stored decision is ever looked up. -/
def analyze_outcome (_feedback_id : String) (final_outcome : ResolutionOutcomeInput) :
    Except PyErr LearningAnalysis :=
  let escalation_was_needed := final_outcome.escalation_was_needed
  let success := final_outcome.success
  let decision_accuracy := decision_accuracy_of escalation_was_needed success
  match generate_learning_insights decision_accuracy final_outcome with
  | .error e => .error e
  | .ok insights =>
    .ok
      { decision_accuracy := decision_accuracy
        escalation_effectiveness := if success then "effective" else "ineffective"
        learning_insights := insights
        improvement_suggestions := generate_improvement_suggestions decision_accuracy
          final_outcome }

structure OutcomeRecordResult where
  feedback_id : String
  status : String
  learning_insights : LearningAnalysis
deriving Repr, DecidableEq

/-- `record_resolution_outcome`: build the outcome record (whose storage is a
no-op placeholder) and return `{feedback_id, status, learning_insights}`. The
feedback id is never validated against recorded decisions. -/
def record_resolution_outcome (feedback_id : String)
    (final_outcome : ResolutionOutcomeInput) : Except PyErr OutcomeRecordResult :=
  match analyze_outcome feedback_id final_outcome with
  | .error e => .error e
  | .ok analysis =>
    .ok { feedback_id := feedback_id, status := "outcome_recorded", learning_insights := analysis }

end LearningFeedback

/-! ## Shared lemmas and sample inputs -/

open ImpactAssessor SeverityClassifier GPTAnalyzer JustificationEngine LearningFeedback

/-- The floor of a natural number divided by 100 is natural division. -/
theorem toNat_floor_natCast_div_100 (n : ℕ) : (⌊(n : ℚ) / 100⌋).toNat = n / 100 := by
  rw [Int.floor_toNat]
  exact_mod_cast Nat.floor_div_eq_div (α := ℚ) n 100

/-- The rational weighted sum truncated by `int()` equals a natural division:
the factor percentages are naturals, so the float expression of the source is
`(5L + 15C + 40K + 20I + 20E) div 100` in exact arithmetic. -/
theorem base_confidence_natdiv (L C K I E : ℕ) :
    base_confidence_of L C K I E = (5 * L + 15 * C + 40 * K + 20 * I + 20 * E) / 100 := by
  unfold base_confidence_of
  rw [show (L : ℚ) * 0.05 + (C : ℚ) * 0.15 + (K : ℚ) * 0.40 + (I : ℚ) * 0.20 + (E : ℚ) * 0.20
        = ((5 * L + 15 * C + 40 * K + 20 * I + 20 * E : ℕ) : ℚ) / 100 by push_cast; ring]
  exact toNat_floor_natCast_div_100 _

theorem log_percentage_le_100 (l : List LogMatch) : log_percentage_of l ≤ 100 := by
  simp only [log_percentage_of]
  split_ifs <;> omega

theorem evidence_percentage_le_100 (es : List String) : evidence_percentage_of es ≤ 100 := by
  simp only [evidence_percentage_of]
  split_ifs <;> omega

theorem identifiers_found_le_3 (a : ParsedAlert) : identifiers_found_of a ≤ 3 := by
  unfold identifiers_found_of
  split_ifs <;> omega

theorem identifier_percentage_le_100 (a : ParsedAlert) : identifier_percentage_of a ≤ 100 := by
  have h := identifiers_found_le_3 a
  unfold identifier_percentage_of
  split_ifs <;> omega

theorem toNat_floor_relevance_le_100 (r : ℚ) (h1 : r ≤ 1) : (⌊r * 100⌋).toNat ≤ 100 := by
  have h2 : r * 100 ≤ 100 := by nlinarith
  have h3 : ⌊r * 100⌋ ≤ 100 := by
    calc ⌊r * 100⌋ ≤ ⌊(100 : ℚ)⌋ := Int.floor_le_floor h2
    _ = 100 := by norm_num
  omega

theorem case_percentage_le_100 (cs : List SimilarCase)
    (h : ∀ c ∈ cs, c.relevance_score.getD 0 ≤ 1) : case_percentage_of cs ≤ 100 := by
  cases cs with
  | nil => simp [case_percentage_of]
  | cons c rest =>
    have hc := h c (List.mem_cons_self c rest)
    simp only [case_percentage_of]
    split_ifs <;> first
      | omega
      | exact toNat_floor_relevance_le_100 _ hc

theorem kb_percentage_le_100 (kbs : List KBArticle) (parsed : ParsedAlert)
    (h : ∀ a ∈ kbs, a.relevance_score.getD 0 ≤ 1) : kb_percentage_of kbs parsed ≤ 100 := by
  cases kbs with
  | nil => simp [kb_percentage_of]
  | cons a rest =>
    have ha := h a (List.mem_cons_self a rest)
    simp only [kb_percentage_of]
    split_ifs <;> first
      | omega
      | exact toNat_floor_relevance_le_100 _ ha

/-- A neutral advisory decision used as a concrete input by witnesses. -/
def gpt0 : GPTDecision :=
  { escalate := false, escalate_to := "", escalate_reason := "", estimated_time := "Unknown"
    resolution_steps := [], verification_steps := [], sql_queries := []
    risk_assessment := "Medium", confidence_in_decision := "Medium", needs_review := false }

/-! ## Claim C1 -/

/-- C1: for every input to the escalation resolver whose severity
classification is "Critical" or "High", the resolved decision has
`escalate = true`, regardless of the confidence score (rule 1 fires first). -/
theorem C1_critical_or_high_severity_always_escalates
    (confidence_score impact_score : ℤ) (severity : String) (gpt_decision : GPTDecision)
    (h : severity = "Critical" ∨ severity = "High") :
    (apply_enhanced_escalation_logic confidence_score impact_score severity
      gpt_decision).escalate = true := by
  show (resolve_rules confidence_score impact_score severity gpt_decision).final_escalate = true
  unfold resolve_rules
  rw [if_pos h]

/-- C1 witness: severity "High" with confidence 90 escalates. -/
theorem C1_witness :
    (("High" : String) = "Critical" ∨ ("High" : String) = "High") ∧
      (apply_enhanced_escalation_logic 90 0 "High" gpt0).escalate = true :=
  ⟨Or.inr rfl, C1_critical_or_high_severity_always_escalates 90 0 "High" gpt0 (Or.inr rfl)⟩

/-! ## Claim C2 -/

/-- C2: gray zone — confidence in [30,50), severity neither Critical nor High,
impact < 70: the resolved decision sets `needs_review` and does not escalate. -/
theorem C2_gray_zone_needs_review_no_escalation
    (confidence_score impact_score : ℤ) (severity : String) (gpt_decision : GPTDecision)
    (h30 : 30 ≤ confidence_score) (h50 : confidence_score < 50)
    (hcrit : severity ≠ "Critical") (hhigh : severity ≠ "High") (himp : impact_score < 70) :
    (apply_enhanced_escalation_logic confidence_score impact_score severity
      gpt_decision).needs_review = true ∧
    (apply_enhanced_escalation_logic confidence_score impact_score severity
      gpt_decision).escalate = false := by
  have h1 : ¬(severity = "Critical" ∨ severity = "High") := by
    rintro (h | h)
    exacts [hcrit h, hhigh h]
  have h2 : ¬(70 ≤ impact_score ∧ confidence_score < 50) := by
    rintro ⟨h, _⟩
    omega
  have hrev : (resolve_rules confidence_score impact_score severity gpt_decision).needs_review
      = true := by
    unfold resolve_rules
    rw [if_neg h1, if_neg h2, if_pos ⟨h30, h50⟩]
  have hesc : (resolve_rules confidence_score impact_score severity gpt_decision).final_escalate
      = false := by
    unfold resolve_rules
    rw [if_neg h1, if_neg h2, if_pos ⟨h30, h50⟩]
  exact ⟨hrev, hesc⟩

/-- C2 witness: confidence 40, impact 50, severity "Medium". -/
theorem C2_witness :
    ((30 : ℤ) ≤ 40 ∧ (40 : ℤ) < 50 ∧ ("Medium" : String) ≠ "Critical"
      ∧ ("Medium" : String) ≠ "High" ∧ (50 : ℤ) < 70) ∧
    (apply_enhanced_escalation_logic 40 50 "Medium" gpt0).needs_review = true ∧
    (apply_enhanced_escalation_logic 40 50 "Medium" gpt0).escalate = false :=
  ⟨⟨by omega, by omega, by decide, by decide, by omega⟩,
   C2_gray_zone_needs_review_no_escalation 40 50 "Medium" gpt0
     (by omega) (by omega) (by decide) (by decide) (by omega)⟩

/-! ## Claim C10 -/

/-- C10: the past-cases confidence factor depends only on the first similar
case: `int(100 * r)` when its relevance `r` is positive, the fixed fallback 40
when the score is 0 or absent; a top case of relevance 0.2 scores 20, strictly
below the score-free fallback 40. -/
theorem C10_past_cases_factor_first_case_only (c : SimilarCase) (cs : List SimilarCase) :
    case_percentage_of (c :: cs)
      = (if 0 < c.relevance_score.getD 0 then (⌊c.relevance_score.getD 0 * 100⌋).toNat else 40) ∧
    case_percentage_of [{ relevance_score := some 0.2, problem := "", solution := "" }] = 20 ∧
    case_percentage_of [{ relevance_score := none, problem := "", solution := "" }] = 40 ∧
    case_percentage_of [{ relevance_score := some 0.2, problem := "", solution := "" }]
      < case_percentage_of [{ relevance_score := none, problem := "", solution := "" }] := by
  have h20 : case_percentage_of [{ relevance_score := some 0.2, problem := "", solution := "" }]
      = 20 := by
    show (if 0 < ((some (0.2 : ℚ)).getD 0) then (⌊((some (0.2 : ℚ)).getD 0) * 100⌋).toNat
          else 40) = 20
    rw [if_pos (by norm_num), show ((some (0.2 : ℚ)).getD 0) * 100 = ((20 : ℤ) : ℚ) by norm_num,
      Int.floor_intCast]
    rfl
  have h40 : case_percentage_of [{ relevance_score := none, problem := "", solution := "" }]
      = 40 := rfl
  refine ⟨rfl, h20, h40, ?_⟩
  rw [h20, h40]
  omega

/-! ## Claim C4 -/

/-- C4: the confidence assessment overall score is the integer truncation of
the fixed weighted sum 0.40·KB + 0.20·identifiers + 0.20·evidence-summary +
0.15·cases + 0.05·logs of the five factor percentages and, for well-formed
relevance scores (each in [0,1], so each factor is in [0,100]), lies in
[0,100]. -/
theorem C4_overall_score_is_truncated_weighted_sum
    (log_evidence : List LogMatch) (similar_cases : List SimilarCase)
    (kb_articles : List KBArticle) (parsed : ParsedAlert) (evidence_summary : List String)
    (hcases : ∀ c ∈ similar_cases, c.relevance_score.getD 0 ≤ 1)
    (hkb : ∀ a ∈ kb_articles, a.relevance_score.getD 0 ≤ 1) :
    (generate_confidence_assessment log_evidence similar_cases kb_articles parsed
        evidence_summary).overall_score
      = (⌊(0.40 : ℚ) * kb_percentage_of kb_articles parsed
            + (0.20 : ℚ) * identifier_percentage_of parsed
            + (0.20 : ℚ) * evidence_percentage_of evidence_summary
            + (0.15 : ℚ) * case_percentage_of similar_cases
            + (0.05 : ℚ) * log_percentage_of log_evidence⌋).toNat ∧
    (generate_confidence_assessment log_evidence similar_cases kb_articles parsed
        evidence_summary).overall_score ≤ 100 := by
  have e1 : (generate_confidence_assessment log_evidence similar_cases kb_articles parsed
        evidence_summary).overall_score
      = base_confidence_of (log_percentage_of log_evidence) (case_percentage_of similar_cases)
          (kb_percentage_of kb_articles parsed) (identifier_percentage_of parsed)
          (evidence_percentage_of evidence_summary) := rfl
  constructor
  · rw [e1]
    unfold base_confidence_of
    congr 2
    ring
  · rw [e1, base_confidence_natdiv]
    have h1 := log_percentage_le_100 log_evidence
    have h2 := case_percentage_le_100 similar_cases hcases
    have h3 := kb_percentage_le_100 kb_articles parsed hkb
    have h4 := identifier_percentage_le_100 parsed
    have h5 := evidence_percentage_le_100 evidence_summary
    omega

def c4walert : ParsedAlert :=
  { ticket_id := "T100", channel := "email", module := "Vessel", priority := "High"
    entity_id := "V123", error_code := "VESSEL_ERR_4", symptoms := ["delay"]
    alert_text := "vessel advice failed" }

def c4wcases : List SimilarCase :=
  [{ relevance_score := some 0.5, problem := "p", solution := "s" }]

def c4wkbs : List KBArticle :=
  [{ title := "KB VESSEL_ERR_4", module := "Vessel", content := "Resolution steps"
     relevance_score := some 0.9 }]

/-- C4 witness at a concrete evidence bundle with well-formed relevance scores. -/
theorem C4_witness :
    (∀ c ∈ c4wcases, c.relevance_score.getD 0 ≤ (1 : ℚ)) ∧
    (∀ a ∈ c4wkbs, a.relevance_score.getD 0 ≤ (1 : ℚ)) ∧
    ((generate_confidence_assessment [] c4wcases c4wkbs c4walert ["e"]).overall_score
        = (⌊(0.40 : ℚ) * kb_percentage_of c4wkbs c4walert
              + (0.20 : ℚ) * identifier_percentage_of c4walert
              + (0.20 : ℚ) * evidence_percentage_of ["e"]
              + (0.15 : ℚ) * case_percentage_of c4wcases
              + (0.05 : ℚ) * log_percentage_of []⌋).toNat ∧
      (generate_confidence_assessment [] c4wcases c4wkbs c4walert ["e"]).overall_score ≤ 100) := by
  have hc : ∀ c ∈ c4wcases, c.relevance_score.getD 0 ≤ (1 : ℚ) := by
    intro c hc
    simp only [c4wcases, List.mem_singleton] at hc
    subst hc
    norm_num
  have hk : ∀ a ∈ c4wkbs, a.relevance_score.getD 0 ≤ (1 : ℚ) := by
    intro a ha
    simp only [c4wkbs, List.mem_singleton] at ha
    subst ha
    norm_num
  exact ⟨hc, hk,
    C4_overall_score_is_truncated_weighted_sum [] c4wcases c4wkbs c4walert ["e"] hc hk⟩

/-! ## Claim C6 -/

/-- An alert with module "Unknown" but both remaining identifiers present
(the claim leaves them and the evidence summary unconstrained). -/
def c6xalert : ParsedAlert :=
  { ticket_id := "T6", channel := "email", module := "Unknown", priority := ""
    entity_id := "CT100", error_code := "XX_1", symptoms := [], alert_text := "" }

/-- C6 counterexample: with an empty evidence bundle and module "Unknown" but
an entity id, an error code and a 4-item evidence summary, the overall score
is 33 (not ≤ 20) and the recommendation is "INVESTIGATE FURTHER" (not
"ESCALATE"). -/
theorem C6_counterexample :
    (generate_confidence_assessment [] [] [] c6xalert
        ["e1", "e2", "e3", "e4"]).overall_score = 33 ∧
    ¬((generate_confidence_assessment [] [] [] c6xalert
        ["e1", "e2", "e3", "e4"]).overall_score ≤ 20) ∧
    (generate_confidence_assessment [] [] [] c6xalert
        ["e1", "e2", "e3", "e4"]).interpretation.recommendation = "INVESTIGATE FURTHER" := by
  have hbase : base_confidence_of 0 0 0 66 100 = 33 := by
    rw [base_confidence_natdiv]
  have h1 : (generate_confidence_assessment [] [] [] c6xalert
      ["e1", "e2", "e3", "e4"]).overall_score = 33 := by
    show base_confidence_of 0 0 0 66 100 = 33
    exact hbase
  refine ⟨h1, by omega, ?_⟩
  show recommendation_of (base_confidence_of 0 0 0 66 100) = "INVESTIGATE FURTHER"
  rw [hbase]
  rfl

/-- C6 amended: with an empty evidence bundle, module "Unknown" and an empty
evidence summary, only the identifier factor contributes; the overall score is
at most 20 (indeed at most 13) and the recommendation is "ESCALATE". -/
theorem C6_amended_empty_bundle_and_summary_escalates (alert : ParsedAlert)
    (h : alert.module = "Unknown") :
    (generate_confidence_assessment [] [] [] alert []).overall_score ≤ 20 ∧
    (generate_confidence_assessment [] [] [] alert []).interpretation.recommendation
      = "ESCALATE" := by
  have hmod : ¬(alert.module ≠ "" ∧ alert.module ≠ "Unknown") := by
    rw [h]
    simp
  have hidf : identifiers_found_of alert ≤ 2 := by
    unfold identifiers_found_of
    rw [if_neg hmod]
    split_ifs <;> omega
  have hidp : identifier_percentage_of alert ≤ 66 := by
    unfold identifier_percentage_of
    split_ifs <;> omega
  have key : (generate_confidence_assessment [] [] [] alert []).overall_score
      = 20 * identifier_percentage_of alert / 100 := by
    show base_confidence_of 0 0 0 (identifier_percentage_of alert) 0 = _
    rw [base_confidence_natdiv]
    omega
  constructor
  · rw [key]
    omega
  · show recommendation_of (base_confidence_of 0 0 0 (identifier_percentage_of alert) 0)
      = "ESCALATE"
    have h30 : base_confidence_of 0 0 0 (identifier_percentage_of alert) 0 < 30 := by
      rw [base_confidence_natdiv]
      omega
    unfold recommendation_of
    rw [if_neg (by omega), if_neg (by omega), if_neg (by omega)]

def c6walert : ParsedAlert :=
  { ticket_id := "T6w", channel := "sms", module := "Unknown", priority := ""
    entity_id := "", error_code := "", symptoms := [], alert_text := "" }

/-- C6 witness for the amended claim, at a concrete "Unknown"-module alert. -/
theorem C6_witness :
    c6walert.module = "Unknown" ∧
    ((generate_confidence_assessment [] [] [] c6walert []).overall_score ≤ 20 ∧
      (generate_confidence_assessment [] [] [] c6walert []).interpretation.recommendation
        = "ESCALATE") :=
  ⟨rfl, C6_amended_empty_bundle_and_summary_escalates c6walert rfl⟩

/-! ## Claim C5 -/

/-- The prefix lookup described by the specification for unknown error codes
("unknown codes score 0 unless a prefix match succeeds, in which case it
scores the prefix-matched entry's points"): the first table entry whose code
is a prefix of the alert's error code. This is the spec side of the
comparison; `calculate_impact_score` above is the code side. -/
def spec_prefix_score (error_code : String) : Option ℕ :=
  (error_severity_map.find? (fun p => pyStartswith error_code p.1)).map Prod.snd

def c5xalert : ParsedAlert :=
  { ticket_id := "T5", channel := "email", module := "Database", priority := ""
    entity_id := "", error_code := "DB_CONN_FAIL_2", symptoms := [], alert_text := "" }

/-- C5 counterexample: "DB_CONN_FAIL_2" is not an exact key of the error-code
table and a prefix match succeeds with 40 points, yet the impact assessor
scores the factor 0 — it performs an exact dict lookup only. -/
theorem C5_counterexample :
    error_severity_map.find? (fun p => p.1 == "DB_CONN_FAIL_2") = none ∧
    spec_prefix_score "DB_CONN_FAIL_2" = some 40 ∧
    (calculate_impact_score c5xalert [] [] []).breakdown.error_code_severity.score = 0 ∧
    (calculate_impact_score c5xalert [] [] []).breakdown.error_code_severity.score ≠ 40 := by
  have h0 : (calculate_impact_score c5xalert [] [] []).breakdown.error_code_severity.score
      = 0 := rfl
  refine ⟨rfl, rfl, h0, ?_⟩
  rw [h0]
  decide

/-- C5 amended: the error-code severity factor is an exact table lookup; every
error code that is not an exact key scores 0, whether or not a prefix of it
matches a table entry. -/
theorem C5_amended_unknown_code_scores_zero (parsed_alert : ParsedAlert)
    (log_evidence : List LogMatch) (similar_cases : List SimilarCase)
    (kb_articles : List KBArticle)
    (h : error_severity_map.find? (fun p => p.1 == parsed_alert.error_code) = none) :
    (calculate_impact_score parsed_alert log_evidence similar_cases
        kb_articles).breakdown.error_code_severity.score = 0 := by
  show lookupD error_severity_map parsed_alert.error_code 0 = 0
  unfold lookupD
  rw [h]
  rfl

def c5walert : ParsedAlert :=
  { ticket_id := "T5w", channel := "email", module := "API", priority := ""
    entity_id := "", error_code := "TOTALLY_UNKNOWN", symptoms := [], alert_text := "" }

/-- C5 witness for the amended claim: a code absent from the table scores 0. -/
theorem C5_witness :
    error_severity_map.find? (fun p => p.1 == c5walert.error_code) = none ∧
    (calculate_impact_score c5walert [] [] []).breakdown.error_code_severity.score = 0 :=
  ⟨rfl, C5_amended_unknown_code_scores_zero c5walert [] [] [] rfl⟩

/-! ## Claim C3 -/

theorem severity_rules_values_canonical :
    ∀ p ∈ severity_rules, p.2 ∈ severity_levels := by decide

theorem get_base_severity_canonical (a : ParsedAlert) :
    get_base_severity a ∈ severity_levels := by
  unfold get_base_severity
  split
  · rename_i p hfind
    exact severity_rules_values_canonical p (List.mem_of_find?_eq_some hfind)
  · rename_i hfind
    split
    · rename_i p hfind2
      by_cases hec : a.error_code ≠ ""
      · rw [if_pos hec] at hfind2
        exact severity_rules_values_canonical p (List.mem_of_find?_eq_some hfind2)
      · rw [if_neg hec] at hfind2
        cases hfind2
    · split_ifs <;> decide

theorem apply_module_modifiers_canonical (b : String) (a : ParsedAlert)
    (hb : b ∈ severity_levels) : apply_module_modifiers b a ∈ severity_levels := by
  unfold apply_module_modifiers
  split_ifs with h0
  · exact hb
  · have hk : (clamp_index ((severity_levels.indexOf b : ℕ)
        + lookupD module_severity_modifiers a.module 0)).toNat ≤ 3 := by
      have hlen : (severity_levels.length : ℤ) = 4 := rfl
      unfold clamp_index
      rw [hlen]
      omega
    rcases Nat.lt_or_ge (clamp_index ((severity_levels.indexOf b : ℕ)
        + lookupD module_severity_modifiers a.module 0)).toNat 4 with hlt | hge
    · interval_cases h : (clamp_index ((severity_levels.indexOf b : ℕ)
          + lookupD module_severity_modifiers a.module 0)).toNat <;> decide
    · omega

theorem gpt_refine_severity_canonical (cur resp : String) (hcur : cur ∈ severity_levels) :
    gpt_refine_severity cur resp ∈ severity_levels := by
  unfold gpt_refine_severity
  split_ifs with h
  · exact h
  · exact hcur

/-- C3 amended: the final severity is always one of the four canonical tiers,
and whenever the refiner response, after stripping surrounding whitespace, is
not one of the four tiers, the final severity equals the pre-refinement
(adjusted) value. (The source strips the response before validating it, so a
response that differs from a tier only by surrounding whitespace is accepted;
the claim's "not exactly one of those four strings" fails there.) -/
theorem C3_amended_severity_canonical_and_strip_guard (parsed_alert : ParsedAlert)
    (impact : ImpactAssessment) (gpt_response : Option String) :
    (classify_severity parsed_alert impact gpt_response).severity ∈ severity_levels ∧
    (∀ s, gpt_response = some s → pyStrip s ∉ severity_levels →
      (classify_severity parsed_alert impact gpt_response).severity
        = (classify_severity parsed_alert impact gpt_response).adjusted_severity) := by
  have hadj : apply_module_modifiers (get_base_severity parsed_alert) parsed_alert
      ∈ severity_levels :=
    apply_module_modifiers_canonical _ _ (get_base_severity_canonical _)
  constructor
  · cases gpt_response with
    | none => exact hadj
    | some r => exact gpt_refine_severity_canonical _ r hadj
  · intro s hs hstrip
    subst hs
    show gpt_refine_severity (apply_module_modifiers (get_base_severity parsed_alert)
        parsed_alert) s
      = apply_module_modifiers (get_base_severity parsed_alert) parsed_alert
    unfold gpt_refine_severity
    rw [if_neg hstrip]

def c3xalert : ParsedAlert :=
  { ticket_id := "T3", channel := "email", module := "Vessel", priority := ""
    entity_id := "", error_code := "LOG_WARN", symptoms := [], alert_text := "" }

def c3ximpact : ImpactAssessment := calculate_impact_score c3xalert [] [] []

/-- C3 counterexample: the refiner response " Critical" (leading blank) is not
exactly one of the four tier strings, yet — stripped before validation — it
replaces the pre-refinement value "Low" with "Critical". -/
theorem C3_counterexample :
    ((" Critical" : String) ≠ "Low" ∧ (" Critical" : String) ≠ "Medium"
      ∧ (" Critical" : String) ≠ "High" ∧ (" Critical" : String) ≠ "Critical") ∧
    (classify_severity c3xalert c3ximpact (some " Critical")).adjusted_severity = "Low" ∧
    (classify_severity c3xalert c3ximpact (some " Critical")).severity = "Critical" :=
  ⟨⟨by decide, by decide, by decide, by decide⟩, rfl, rfl⟩

/-- C3 witness: the response "Urgent" is rejected and the pre-refinement value
kept. -/
theorem C3_witness :
    pyStrip "Urgent" ∉ severity_levels ∧
    (classify_severity c3xalert c3ximpact (some "Urgent")).severity
      = (classify_severity c3xalert c3ximpact (some "Urgent")).adjusted_severity :=
  ⟨by decide, (C3_amended_severity_canonical_and_strip_guard c3xalert c3ximpact
      (some "Urgent")).2 "Urgent" rfl (by decide)⟩

/-! ## Claim C7 -/

def benign_outcome : ResolutionOutcomeInput :=
  { resolved_by := "L2 engineer", resolution_time := "", resolution_method := ""
    success := true, escalation_was_needed := true, actual_escalate_to := "", notes := "" }

/-- C7 counterexample: recordOutcome on an unknown feedback id does not return
a NotFound error — it succeeds with status "outcome_recorded" (the source
never consults recorded decisions; its storage is a no-op placeholder). -/
theorem C7_counterexample :
    (record_resolution_outcome "fb_missing_123" benign_outcome).map
        (fun r => r.status) = Except.ok "outcome_recorded" ∧
    ("outcome_recorded" : String) ≠ "NotFound" :=
  ⟨rfl, by decide⟩

/-- C7 amended: recordOutcome never validates the feedback id: whenever it
returns (its only failure mode is a ValueError raised while parsing the
outcome's resolution time), the status is "outcome_recorded" and the id is
echoed back; there is no NotFound error, and no stored record exists to be
mutated (storage is a print-only placeholder). -/
theorem C7_amended_always_outcome_recorded (feedback_id : String)
    (final_outcome : ResolutionOutcomeInput) (r : OutcomeRecordResult)
    (h : record_resolution_outcome feedback_id final_outcome = Except.ok r) :
    r.status = "outcome_recorded" ∧ r.feedback_id = feedback_id := by
  unfold record_resolution_outcome at h
  rcases ha : analyze_outcome feedback_id final_outcome with e | analysis
  · rw [ha] at h
    cases h
  · rw [ha] at h
    simp only [Except.ok.injEq] at h
    subst h
    exact ⟨rfl, rfl⟩

def c7wresult : OutcomeRecordResult :=
  { feedback_id := "fb_w1", status := "outcome_recorded"
    learning_insights :=
      { decision_accuracy := "correct_escalation", escalation_effectiveness := "effective"
        learning_insights := ["Escalation decision was appropriate and effective"]
        improvement_suggestions := [] } }

/-- C7 witness at a concrete feedback id and outcome. -/
theorem C7_witness :
    record_resolution_outcome "fb_w1" benign_outcome = Except.ok c7wresult ∧
    (c7wresult.status = "outcome_recorded" ∧ c7wresult.feedback_id = "fb_w1") :=
  ⟨rfl, C7_amended_always_outcome_recorded "fb_w1" benign_outcome c7wresult rfl⟩

/-! ## Claim C8 -/

def c8xdecision : FinalDecision := apply_enhanced_escalation_logic 90 80 "High" gpt0

def c8xoutcome : ResolutionOutcomeInput :=
  { resolved_by := "unknown", resolution_time := "", resolution_method := ""
    success := false, escalation_was_needed := true, actual_escalate_to := "", notes := "" }

/-- C8 counterexample: a recorded decision that escalated, an outcome with
escalationWasNeeded true but success false: the analysis still reports
"incorrect_no_escalation", although escalation was needed AND the recorded
decision did escalate — the bucket is computed from the outcome's success
flag, never from the recorded decision. -/
theorem C8_counterexample :
    c8xdecision.escalate = true ∧
    (analyze_outcome "fb_c8" c8xoutcome).map (fun a => a.decision_accuracy)
      = Except.ok "incorrect_no_escalation" ∧
    ¬(c8xoutcome.escalation_was_needed = true ∧ c8xdecision.escalate = false) := by
  refine ⟨rfl, rfl, ?_⟩
  rintro ⟨-, hx⟩
  have he : c8xdecision.escalate = true := rfl
  rw [he] at hx
  cases hx

/-- C8 amended: whenever the analysis succeeds it assigns exactly one of the
four accuracy buckets, determined by comparing the outcome's
escalationWasNeeded flag against the outcome's success flag — the recorded
decision's escalate flag is never consulted. -/
theorem C8_amended_buckets_from_needed_and_success (feedback_id : String)
    (o : ResolutionOutcomeInput) (a : LearningAnalysis)
    (h : analyze_outcome feedback_id o = Except.ok a) :
    (a.decision_accuracy = "correct_escalation"
        ↔ (o.escalation_was_needed = true ∧ o.success = true)) ∧
    (a.decision_accuracy = "correct_no_escalation"
        ↔ (o.escalation_was_needed = false ∧ o.success = true)) ∧
    (a.decision_accuracy = "incorrect_no_escalation"
        ↔ (o.escalation_was_needed = true ∧ o.success = false)) ∧
    (a.decision_accuracy = "incorrect_escalation"
        ↔ (o.escalation_was_needed = false ∧ o.success = false)) := by
  have hacc : a.decision_accuracy
      = decision_accuracy_of o.escalation_was_needed o.success := by
    simp only [analyze_outcome] at h
    rcases hg : generate_learning_insights
        (decision_accuracy_of o.escalation_was_needed o.success) o with e | ins
    · rw [hg] at h
      cases h
    · rw [hg] at h
      simp only [Except.ok.injEq] at h
      subst h
      rfl
  rw [hacc]
  cases hb : o.escalation_was_needed <;> cases hs : o.success <;>
    simp [decision_accuracy_of]

def c8woutcome : ResolutionOutcomeInput :=
  { resolved_by := "unknown", resolution_time := "", resolution_method := ""
    success := true, escalation_was_needed := true, actual_escalate_to := "", notes := "" }

def c8wanalysis : LearningAnalysis :=
  { decision_accuracy := "correct_escalation", escalation_effectiveness := "effective"
    learning_insights := ["Escalation decision was appropriate and effective"]
    improvement_suggestions := [] }

/-- C8 witness at a concrete outcome on which the analysis succeeds. -/
theorem C8_witness :
    analyze_outcome "fb_w8" c8woutcome = Except.ok c8wanalysis ∧
    ((c8wanalysis.decision_accuracy = "correct_escalation"
        ↔ (c8woutcome.escalation_was_needed = true ∧ c8woutcome.success = true)) ∧
      (c8wanalysis.decision_accuracy = "correct_no_escalation"
        ↔ (c8woutcome.escalation_was_needed = false ∧ c8woutcome.success = true)) ∧
      (c8wanalysis.decision_accuracy = "incorrect_no_escalation"
        ↔ (c8woutcome.escalation_was_needed = true ∧ c8woutcome.success = false)) ∧
      (c8wanalysis.decision_accuracy = "incorrect_escalation"
        ↔ (c8woutcome.escalation_was_needed = false ∧ c8woutcome.success = false))) :=
  ⟨rfl, C8_amended_buckets_from_needed_and_success "fb_w8" c8woutcome c8wanalysis rfl⟩

/-! ## Claim C9 -/

/-- C9: the justification engine is a pure deterministic function of the
decision, the three assessments, the parsed alert and the evidence bundle: two
calls on equal inputs yield identical output. (Its embedding is total and
calls no collaborator: the source builds every field from its arguments by
threshold checks and fixed templates.) -/
theorem C9_justification_deterministic
    (d d2 : FinalDecision) (c c2 : ConfidenceAssessment) (i i2 : ImpactAssessment)
    (s s2 : SeverityClassification) (p p2 : ParsedAlert) (l l2 : List LogMatch)
    (sc sc2 : List SimilarCase) (kb kb2 : List KBArticle)
    (h : d = d2 ∧ c = c2 ∧ i = i2 ∧ s = s2 ∧ p = p2 ∧ l = l2 ∧ sc = sc2 ∧ kb = kb2) :
    generate_justification d c i s p l sc kb
      = generate_justification d2 c2 i2 s2 p2 l2 sc2 kb2 := by
  obtain ⟨h1, h2, h3, h4, h5, h6, h7, h8⟩ := h
  subst h1
  subst h2
  subst h3
  subst h4
  subst h5
  subst h6
  subst h7
  subst h8
  rfl

def w9alert : ParsedAlert :=
  { ticket_id := "T9", channel := "email", module := "Vessel", priority := "High"
    entity_id := "V9", error_code := "VESSEL_ERR_4", symptoms := ["failed"]
    alert_text := "urgent vessel advice failed" }

def w9impact : ImpactAssessment := calculate_impact_score w9alert [] [] []

def w9sev : SeverityClassification := classify_severity w9alert w9impact none

def w9conf : ConfidenceAssessment := generate_confidence_assessment [] [] [] w9alert []

def w9dec : FinalDecision :=
  apply_enhanced_escalation_logic (w9conf.overall_score : ℤ) (w9impact.impact_score : ℤ)
    w9sev.severity gpt0

/-- C9 witness: two calls on a concrete pipeline-produced input bundle. -/
theorem C9_witness :
    (w9dec = w9dec ∧ w9conf = w9conf ∧ w9impact = w9impact ∧ w9sev = w9sev
      ∧ w9alert = w9alert ∧ ([] : List LogMatch) = [] ∧ ([] : List SimilarCase) = []
      ∧ ([] : List KBArticle) = []) ∧
    generate_justification w9dec w9conf w9impact w9sev w9alert [] [] []
      = generate_justification w9dec w9conf w9impact w9sev w9alert [] [] [] :=
  ⟨⟨rfl, rfl, rfl, rfl, rfl, rfl, rfl, rfl⟩,
   C9_justification_deterministic w9dec w9dec w9conf w9conf w9impact w9impact w9sev w9sev
     w9alert w9alert [] [] [] [] [] [] ⟨rfl, rfl, rfl, rfl, rfl, rfl, rfl, rfl⟩⟩
